import Mathlib

/-!
Verification of `libs/libmysqlxx/include/mysqlxx/Connection.h` (mysqlxx
connection wrapper).  The header declares a thin wrapper class `Connection`
over the MySQL C client library and a library-initialisation singleton
`LibrarySingleton`.  The only function with a body in the header is
`Connection::connect(const std::string & config_name)`, which reads named
settings from the Poco hierarchical configuration store and forwards them to
the eight-argument `connect`.  We embed that function, the configuration
store it reads from, the declared class interfaces, and small operational
models for the parts of the translation units that live outside the header.
-/

namespace Mysqlxx

/-- The C macro `MYSQLXX_DEFAULT_TIMEOUT` (Connection.h line 13). -/
def MYSQLXX_DEFAULT_TIMEOUT : Int := 60

/-- The C macro `MYSQLXX_DEFAULT_RW_TIMEOUT` (Connection.h line 14). -/
def MYSQLXX_DEFAULT_RW_TIMEOUT : Int := 1800

/-- Modelled from the spec: the "external hierarchical configuration store"
(`Poco::Util::LayeredConfiguration`, not part of this repository) is a plain
key/value store.  `strs` holds each key's value as interpreted by
`getString`, `ints` each key's value as interpreted by `getInt`; a key absent
from the list is absent from the store.  Values are modelled as already
interpreted (well-formed), which is the level at which the spec describes the
store ("reading plain key/value configuration"). -/
structure Config where
  strs : List (String × String)
  ints : List (String × Int)
deriving DecidableEq, Repr

/-- Value of a string key, `none` when the key is absent. -/
def Config.lookupStr (cfg : Config) (k : String) : Option String :=
  (cfg.strs.find? (fun p => p.1 == k)).map Prod.snd

/-- Value of an integer key, `none` when the key is absent. -/
def Config.lookupInt (cfg : Config) (k : String) : Option Int :=
  (cfg.ints.find? (fun p => p.1 == k)).map Prod.snd

/-- Modelled from the spec: Poco raises a configuration error
(`NotFoundException`) when a key looked up without a default is absent. -/
inductive ConfigError where
  | notFound (key : String)
deriving DecidableEq, Repr

/-- Poco `cfg.getString(key)` — no default, errors when the key is absent. -/
def Config.getString (cfg : Config) (k : String) : Except ConfigError String :=
  match cfg.lookupStr k with
  | some v => Except.ok v
  | none => Except.error (ConfigError.notFound k)

/-- Poco `cfg.getString(key, default)`. -/
def Config.getStringD (cfg : Config) (k : String) (d : String) : String :=
  (cfg.lookupStr k).getD d

/-- Poco `cfg.getInt(key, default)`. -/
def Config.getIntD (cfg : Config) (k : String) (d : Int) : Int :=
  (cfg.lookupInt k).getD d

/-- The C++ conversion of Poco's `int` result to the `unsigned` parameters of
the eight-argument `connect` (wrap modulo `2^32`). -/
def uint32 (i : Int) : Nat :=
  (i % (2 ^ 32 : Int)).toNat

/-- The parameter shape of the eight-argument
`Connection::connect(db, server, user, password, port, socket, timeout,
rw_timeout)` declared at Connection.h lines 75–82, in that argument order. -/
structure ConnectArgs where
  db : String
  server : String
  user : String
  password : String
  port : Nat
  socket : String
  timeout : Nat
  rw_timeout : Nat
deriving DecidableEq, Repr

/-- The connect-timeout resolution expression of Connection.h lines 95–98:
`cfg.getInt(config_name + ".connect_timeout", cfg.getInt("mysql_connect_timeout", MYSQLXX_DEFAULT_TIMEOUT))`. -/
def resolveConnectTimeout (cfg : Config) (config_name : String) : Int :=
  cfg.getIntD (config_name ++ ".connect_timeout")
    (cfg.getIntD "mysql_connect_timeout" MYSQLXX_DEFAULT_TIMEOUT)

/-- The rw-timeout resolution expression of Connection.h lines 100–103:
`cfg.getInt(config_name + ".rw_timeout", cfg.getInt("mysql_rw_timeout", MYSQLXX_DEFAULT_RW_TIMEOUT))`. -/
def resolveRwTimeout (cfg : Config) (config_name : String) : Int :=
  cfg.getIntD (config_name ++ ".rw_timeout")
    (cfg.getIntD "mysql_rw_timeout" MYSQLXX_DEFAULT_RW_TIMEOUT)

/-- The inline `Connection::connect(const std::string & config_name)`
(Connection.h lines 84–106): the configuration reads, in source order, producing the
argument tuple passed to the eight-argument `connect` at line 105, or the
first configuration error raised. -/
def connectByConfig (cfg : Config) (config_name : String) :
    Except ConfigError ConnectArgs := do
  let db := cfg.getStringD (config_name ++ ".db") ""
  let server ← cfg.getString (config_name ++ ".host")
  let user ← cfg.getString (config_name ++ ".user")
  let password ← cfg.getString (config_name ++ ".password")
  let port := uint32 (cfg.getIntD (config_name ++ ".port") 0)
  let socket := cfg.getStringD (config_name ++ ".socket") ""
  let timeout := uint32 (resolveConnectTimeout cfg config_name)
  let rw_timeout := uint32 (resolveRwTimeout cfg config_name)
  pure ⟨db, server, user, password, port, socket, timeout, rw_timeout⟩

/-- Overwrite (or add) an integer key of the store. -/
def Config.setInt (cfg : Config) (k : String) (v : Int) : Config :=
  ⟨cfg.strs, (k, v) :: cfg.ints⟩

/-! ## Operational model of a `Connection`'s lifecycle

The members other than `connect(config_name)` are declared in the header but
their bodies live in the library's `Connection.cpp`, which is not among the
source files; their behaviour is modelled from the spec and the header's own
documentation comments. -/

/-- Calls into the wrapped native MySQL client library: every piece of work a
`Connection` operation performs is one of these delegations. -/
inductive Event where
  /-- Library initialisation (`mysql_library_init` / `mysql_init`) via
  `LibrarySingleton::instance()` at construction. -/
  | libInit
  /-- The `mysql_real_connect` call behind the eight-argument `connect`. -/
  | realConnect (args : ConnectArgs)
  /-- Creation of a `Query` object bound to this connection (`query(str)`). -/
  | createQuery (q : String)
  /-- The `mysql_ping` call behind `ping()`. -/
  | pingCall
  /-- The `mysql_close` call behind `disconnect()`. -/
  | close
deriving DecidableEq, Repr

/-- The private state of a `Connection` (Connection.h line 125). -/
structure ConnState where
  is_connected : Bool
deriving DecidableEq, Repr

/-- The public operations of a constructed `Connection`.  `ping`'s outcome
depends on the server, so it carries the library's answer as an oracle. -/
inductive Op where
  | connectExplicit (args : ConnectArgs)
  | connectCfg (cfg : Config) (config_name : String)
  | query (q : String)
  | ping (alive : Bool)
  | disconnect
deriving Repr

/-- Modelled from the spec: the default constructor ("for delayed
initialisation") initialises the library and driver but does not connect. -/
def construct : ConnState × List Event :=
  (⟨false⟩, [Event.libInit])

/-- Modelled from the spec: one public operation as a state transition plus
the library calls it delegates to.  `connectCfg` is the header's inline
`connect(config_name)`: on a configuration error the eight-argument connect
at line 105 is never reached, so no library call is made and the state is
untouched. -/
def step (st : ConnState) : Op → ConnState × List Event
  | Op.connectExplicit args => (⟨true⟩, [Event.realConnect args])
  | Op.connectCfg cfg config_name =>
      match connectByConfig cfg config_name with
      | Except.ok args => (⟨true⟩, [Event.realConnect args])
      | Except.error _ => (st, [])
  | Op.query q => (st, [Event.createQuery q])
  | Op.ping alive => (⟨alive⟩, [Event.pingCall])
  | Op.disconnect => (⟨false⟩, [Event.close])

/-- Run a sequence of public operations, collecting the delegated calls. -/
def runOps : ConnState → List Op → ConnState × List Event
  | st, [] => (st, [])
  | st, op :: ops =>
      let s1 := step st op
      let s2 := runOps s1.1 ops
      (s2.1, s1.2 ++ s2.2)

/-! ## The declared interfaces of the header

A transcription of the two class declarations of Connection.h, member by
member, used for the claims about the exposed interface, access control and
ownership. -/

/-- C++ access specifier of a member. -/
inductive Access where
  | pub
  | priv
deriving DecidableEq, Repr

/-- Kind of a C++ class member. -/
inductive MemberKind where
  | ctor
  | dtor
  | method
  | field
deriving DecidableEq, Repr

/-- One declared member: name, kind, access, parameter/type signature as
written, and whether it is `virtual`. -/
structure Member where
  name : String
  kind : MemberKind
  access : Access
  sig : String
  virt : Bool
deriving DecidableEq, Repr

/-- A class declaration: name, base classes as written, members in
declaration order. -/
structure ClassDecl where
  name : String
  bases : List String
  members : List Member
deriving DecidableEq, Repr

/-- The members of `class Connection` (Connection.h lines 50–126), in
declaration order. -/
def connectionMembers : List Member :=
  [⟨"Connection", MemberKind.ctor, Access.pub, "()", false⟩,
   ⟨"Connection", MemberKind.ctor, Access.pub,
     "(db, server, user, password, port, socket, timeout, rw_timeout)", false⟩,
   ⟨"Connection", MemberKind.ctor, Access.pub, "(config_name)", false⟩,
   ⟨"~Connection", MemberKind.dtor, Access.pub, "()", true⟩,
   ⟨"connect", MemberKind.method, Access.pub,
     "(db, server, user, password, port, socket, timeout, rw_timeout)", true⟩,
   ⟨"connect", MemberKind.method, Access.pub, "(config_name)", false⟩,
   ⟨"connected", MemberKind.method, Access.pub, "()", false⟩,
   ⟨"disconnect", MemberKind.method, Access.pub, "()", false⟩,
   ⟨"ping", MemberKind.method, Access.pub, "()", false⟩,
   ⟨"query", MemberKind.method, Access.pub, "(str)", false⟩,
   ⟨"getDriver", MemberKind.method, Access.pub, "()", false⟩,
   ⟨"driver", MemberKind.field, Access.priv, "std::unique_ptr<MYSQL>", false⟩,
   ⟨"is_connected", MemberKind.field, Access.priv, "bool", false⟩]

/-- The declaration `class Connection : private boost::noncopyable`
(line 50). -/
def ConnectionClass : ClassDecl :=
  ⟨"Connection", ["boost::noncopyable"], connectionMembers⟩

/-- The members of `class LibrarySingleton` (Connection.h lines 26–32): a
private constructor and a private destructor, nothing else. -/
def librarySingletonMembers : List Member :=
  [⟨"LibrarySingleton", MemberKind.ctor, Access.priv, "()", false⟩,
   ⟨"~LibrarySingleton", MemberKind.dtor, Access.priv, "()", false⟩]

/-- The declaration
`class LibrarySingleton : public ext::singleton<LibrarySingleton>`
(line 26). -/
def LibrarySingletonClass : ClassDecl :=
  ⟨"LibrarySingleton", ["ext::singleton<LibrarySingleton>"],
    librarySingletonMembers⟩

/-- The class declarations of the header, in order. -/
def headerClasses : List ClassDecl :=
  [LibrarySingletonClass, ConnectionClass]

/-- The header's line count. -/
def headerLineCount : Nat := 129

/-- Public members of `Connection`, as (name, signature) pairs. -/
def publicMemberSigs : List (String × String) :=
  (connectionMembers.filter (fun m => m.access == Access.pub)).map
    (fun m => (m.name, m.sig))

/-- The public interface listed by the spec sentence behind claim C6: the
three constructors, the configuration-driven connect path, `ping`,
`disconnect` and `query`. -/
def c6ListedInterface : List (String × String) :=
  [("Connection", "()"),
   ("Connection", "(db, server, user, password, port, socket, timeout, rw_timeout)"),
   ("Connection", "(config_name)"),
   ("connect", "(config_name)"),
   ("ping", "()"),
   ("disconnect", "()"),
   ("query", "(str)")]

/-! ## The `ext::singleton` instance mechanism -/

/-- Modelled from the spec: `ext::singleton<T>::instance()`
(`ext/singleton.h`, not among the source files) lazily creates the unique
instance on first call and returns the same instance on every later call.
State is the already-created instance, if any; the second argument is the
fresh identity a first call would allocate. -/
def instanceCall : Option Nat → Nat → Option Nat × Nat
  | some i, _ => (some i, i)
  | none, fresh => (some fresh, fresh)

/-- The identities returned by `k` successive `instance()` calls. -/
def singletonRun : Option Nat → Nat → Nat → List Nat
  | _, _, 0 => []
  | st, fresh, Nat.succ k =>
      let r := instanceCall st fresh
      r.2 :: singletonRun r.1 (fresh + 1) k

/-! ## Driver ownership

Each `Connection` holds its `MYSQL` driver object through
`std::unique_ptr<MYSQL>` and is non-copyable, so driver handles are created
fresh per connection and never duplicated.  The world tracks the handles of
live connections; `create` is any of the three constructors (each allocates
a fresh driver), `destroy` is the destructor (the `unique_ptr` frees the
driver). -/

/-- The set of live driver handles plus a fresh-handle counter. -/
structure World where
  next : Nat
  conns : List Nat
deriving DecidableEq, Repr

/-- Construction and destruction of `Connection` objects. -/
inductive WOp where
  | create
  | destroy (h : Nat)
deriving DecidableEq, Repr

/-- One constructor or destructor call. -/
def wstep (w : World) : WOp → World
  | WOp.create => ⟨w.next + 1, w.next :: w.conns⟩
  | WOp.destroy h => ⟨w.next, w.conns.erase h⟩

/-- Run a sequence of constructions and destructions from a world. -/
def wrun : World → List WOp → World
  | w, [] => w
  | w, op :: ops => wrun (wstep w op) ops

/-- Whether an `Except` computation succeeded. -/
def exceptIsOk {ε α : Type} : Except ε α → Bool
  | Except.ok _ => true
  | Except.error _ => false

/-- The non-timeout components of the argument tuple. -/
def dropTimeouts (a : ConnectArgs) :
    String × String × String × String × Nat × String :=
  (a.db, a.server, a.user, a.password, a.port, a.socket)

/-- The configuration keys that feed the two timeout parameters. -/
def timeoutKeys (config_name : String) : List String :=
  [config_name ++ ".connect_timeout", config_name ++ ".rw_timeout",
   "mysql_connect_timeout", "mysql_rw_timeout"]

/-- Follows the spec's words for claim C5 ("All interesting behavior
(timeouts, retries, socket vs. TCP selection, auth) is enacted by the
wrapped native library, not implemented here"): the wrapper enacts no
timeout behaviour of its own — timeout configuration flows only into the two
timeout parameters handed to the native library, and influences nothing
else: not whether the library connect is attempted, nor any other argument
of the call. -/
def timeoutBehaviourOnlyInLibrary
    (f : Config → String → Except ConfigError ConnectArgs) : Prop :=
  ∀ cfg₁ cfg₂ config_name,
    cfg₁.strs = cfg₂.strs →
    (∀ k, k ∉ timeoutKeys config_name →
      cfg₁.lookupInt k = cfg₂.lookupInt k) →
    Except.map dropTimeouts (f cfg₁ config_name) =
      Except.map dropTimeouts (f cfg₂ config_name)

/-- The world invariant: live driver handles are pairwise distinct and below
the fresh counter. -/
def WInv (w : World) : Prop :=
  w.conns.Nodup ∧ ∀ h ∈ w.conns, h < w.next

/-! ## Helper lemmas -/

lemma string_data_append (a b : String) : (a ++ b).data = a.data ++ b.data :=
  rfl

/-- A string ending in the suffix `s` differs from `t` whenever `t` does not
end in `s` (checked on the character lists). -/
lemma append_ne_of_drop_ne (s t : String)
    (h : t.data.drop (t.data.length - s.data.length) ≠ s.data) :
    ∀ config_name : String, config_name ++ s ≠ t := by
  intro name heq
  apply h
  have hd : name.data ++ s.data = t.data := by
    rw [← heq, string_data_append]
  rw [← hd, List.length_append, Nat.add_sub_cancel, List.drop_left]

lemma append_left_ne (a b : String) (h : a ≠ b) :
    ∀ config_name : String, config_name ++ a ≠ config_name ++ b := by
  intro name heq
  apply h
  have hd : name.data ++ a.data = name.data ++ b.data := by
    rw [← string_data_append, ← string_data_append, heq]
  cases a
  cases b
  exact congrArg String.mk (List.append_cancel_left hd)

lemma connect_timeout_key_ne_global (config_name : String) :
    config_name ++ ".connect_timeout" ≠ "mysql_connect_timeout" :=
  append_ne_of_drop_ne ".connect_timeout" "mysql_connect_timeout"
    (by decide) config_name

lemma rw_timeout_key_ne_global (config_name : String) :
    config_name ++ ".rw_timeout" ≠ "mysql_rw_timeout" :=
  append_ne_of_drop_ne ".rw_timeout" "mysql_rw_timeout" (by decide) config_name

lemma lookupInt_setInt_self (cfg : Config) (k : String) (v : Int) :
    (cfg.setInt k v).lookupInt k = some v := by
  simp [Config.setInt, Config.lookupInt, List.find?]

lemma lookupInt_setInt_ne (cfg : Config) (k k' : String) (v : Int)
    (h : k' ≠ k) : (cfg.setInt k v).lookupInt k' = cfg.lookupInt k' := by
  have hb : (k == k') = false := by
    simp [Ne.symm h]
  simp [Config.setInt, Config.lookupInt, List.find?, hb]

lemma setInt_strs (cfg : Config) (k : String) (v : Int) :
    (cfg.setInt k v).strs = cfg.strs := rfl

/-- String reads only look at the string part of the store. -/
lemma getString_congr (cfg₁ cfg₂ : Config) (h : cfg₁.strs = cfg₂.strs)
    (k : String) : cfg₁.getString k = cfg₂.getString k := by
  simp [Config.getString, Config.lookupStr, h]

lemma getStringD_congr (cfg₁ cfg₂ : Config) (h : cfg₁.strs = cfg₂.strs)
    (k d : String) : cfg₁.getStringD k d = cfg₂.getStringD k d := by
  simp [Config.getStringD, Config.lookupStr, h]

/-- The complete case analysis of `connect(config_name)`: the three
defaultless `getString` reads decide success, and on success the argument
tuple is exactly the configuration reads. -/
lemma connectByConfig_eq (cfg : Config) (config_name : String) :
    connectByConfig cfg config_name =
      match cfg.lookupStr (config_name ++ ".host"),
            cfg.lookupStr (config_name ++ ".user"),
            cfg.lookupStr (config_name ++ ".password") with
      | some s, some u, some p =>
          Except.ok
            ⟨cfg.getStringD (config_name ++ ".db") "", s, u, p,
             uint32 (cfg.getIntD (config_name ++ ".port") 0),
             cfg.getStringD (config_name ++ ".socket") "",
             uint32 (resolveConnectTimeout cfg config_name),
             uint32 (resolveRwTimeout cfg config_name)⟩
      | none, _, _ =>
          Except.error (ConfigError.notFound (config_name ++ ".host"))
      | some _, none, _ =>
          Except.error (ConfigError.notFound (config_name ++ ".user"))
      | some _, some _, none =>
          Except.error (ConfigError.notFound (config_name ++ ".password")) := by
  cases hh : cfg.lookupStr (config_name ++ ".host") <;>
    cases hu : cfg.lookupStr (config_name ++ ".user") <;>
      cases hp : cfg.lookupStr (config_name ++ ".password") <;>
        simp [connectByConfig, Config.getString, hh, hu, hp, Bind.bind,
          Except.bind, pure, Except.pure]

/-! ## Claims -/

/-- C1: `Connection::connect(config_name)` maps configuration into the
native library's parameter shape: db from `config_name + ".db"` (default
`""`), server from `".host"`, user from `".user"`, password from
`".password"`, port from `".port"` (default 0) and socket from `".socket"`
(default `""`), and calls the eight-argument connect with exactly these
values in the order (db, server, user, password, port, socket, timeout,
rw_timeout), performing no other computation on them (the `unsigned`
parameters undergo only the C++ `int`→`unsigned` conversion `uint32`). -/
theorem connect_config_maps_parameter_shape (cfg : Config)
    (config_name s u p : String)
    (hh : cfg.lookupStr (config_name ++ ".host") = some s)
    (hu : cfg.lookupStr (config_name ++ ".user") = some u)
    (hp : cfg.lookupStr (config_name ++ ".password") = some p) :
    connectByConfig cfg config_name =
      Except.ok
        ⟨cfg.getStringD (config_name ++ ".db") "", s, u, p,
         uint32 (cfg.getIntD (config_name ++ ".port") 0),
         cfg.getStringD (config_name ++ ".socket") "",
         uint32 (resolveConnectTimeout cfg config_name),
         uint32 (resolveRwTimeout cfg config_name)⟩ := by
  rw [connectByConfig_eq, hh, hu, hp]

/-- Witness for C1 at a concrete configuration. -/
theorem connect_config_maps_parameter_shape_witness :
    connectByConfig
        ⟨[("m.host", "h"), ("m.user", "u"), ("m.password", "p")],
         [("m.port", 3306)]⟩ "m"
      = Except.ok ⟨"", "h", "u", "p", 3306, "", 60, 1800⟩ :=
  connect_config_maps_parameter_shape _ "m" "h" "u" "p" rfl rfl rfl

/-- C2: the connect timeout resolved by `connect(config_name)` is the value
of `config_name + ".connect_timeout"` when present, else the value of the
global `"mysql_connect_timeout"` when present, else
`MYSQLXX_DEFAULT_TIMEOUT = 60`; the timeout argument passed to the
eight-argument connect is exactly this resolution. -/
theorem connect_timeout_resolution (cfg : Config) (config_name : String) :
    MYSQLXX_DEFAULT_TIMEOUT = 60 ∧
    (∀ v, cfg.lookupInt (config_name ++ ".connect_timeout") = some v →
      resolveConnectTimeout cfg config_name = v) ∧
    (cfg.lookupInt (config_name ++ ".connect_timeout") = none →
      ∀ v, cfg.lookupInt "mysql_connect_timeout" = some v →
        resolveConnectTimeout cfg config_name = v) ∧
    (cfg.lookupInt (config_name ++ ".connect_timeout") = none →
      cfg.lookupInt "mysql_connect_timeout" = none →
      resolveConnectTimeout cfg config_name = MYSQLXX_DEFAULT_TIMEOUT) ∧
    (∀ args, connectByConfig cfg config_name = Except.ok args →
      args.timeout = uint32 (resolveConnectTimeout cfg config_name)) := by
  refine ⟨rfl, ?_, ?_, ?_, ?_⟩
  · intro v hv
    simp [resolveConnectTimeout, Config.getIntD, hv]
  · intro h1 v hv
    simp [resolveConnectTimeout, Config.getIntD, h1, hv]
  · intro h1 h2
    simp [resolveConnectTimeout, Config.getIntD, h1, h2]
  · intro args h
    rw [connectByConfig_eq] at h
    cases hh : cfg.lookupStr (config_name ++ ".host") <;> rw [hh] at h
    · exact absurd h (by simp)
    cases hu : cfg.lookupStr (config_name ++ ".user") <;> rw [hu] at h
    · exact absurd h (by simp)
    cases hp : cfg.lookupStr (config_name ++ ".password") <;> rw [hp] at h
    · exact absurd h (by simp)
    injection h with h
    rw [← h]

/-- Witness for C2 at a concrete configuration carrying the per-connection
key. -/
theorem connect_timeout_resolution_witness :
    resolveConnectTimeout ⟨[], [("a.connect_timeout", 7)]⟩ "a" = 7 :=
  (connect_timeout_resolution ⟨[], [("a.connect_timeout", 7)]⟩ "a").2.1 7 rfl

/-- C3: the read/write timeout resolved by `connect(config_name)` is the
value of `config_name + ".rw_timeout"` when present, else the value of the
global `"mysql_rw_timeout"` when present, else
`MYSQLXX_DEFAULT_RW_TIMEOUT = 1800`; the rw_timeout argument passed to the
eight-argument connect is exactly this resolution. -/
theorem rw_timeout_resolution (cfg : Config) (config_name : String) :
    MYSQLXX_DEFAULT_RW_TIMEOUT = 1800 ∧
    (∀ v, cfg.lookupInt (config_name ++ ".rw_timeout") = some v →
      resolveRwTimeout cfg config_name = v) ∧
    (cfg.lookupInt (config_name ++ ".rw_timeout") = none →
      ∀ v, cfg.lookupInt "mysql_rw_timeout" = some v →
        resolveRwTimeout cfg config_name = v) ∧
    (cfg.lookupInt (config_name ++ ".rw_timeout") = none →
      cfg.lookupInt "mysql_rw_timeout" = none →
      resolveRwTimeout cfg config_name = MYSQLXX_DEFAULT_RW_TIMEOUT) ∧
    (∀ args, connectByConfig cfg config_name = Except.ok args →
      args.rw_timeout = uint32 (resolveRwTimeout cfg config_name)) := by
  refine ⟨rfl, ?_, ?_, ?_, ?_⟩
  · intro v hv
    simp [resolveRwTimeout, Config.getIntD, hv]
  · intro h1 v hv
    simp [resolveRwTimeout, Config.getIntD, h1, hv]
  · intro h1 h2
    simp [resolveRwTimeout, Config.getIntD, h1, h2]
  · intro args h
    rw [connectByConfig_eq] at h
    cases hh : cfg.lookupStr (config_name ++ ".host") <;> rw [hh] at h
    · exact absurd h (by simp)
    cases hu : cfg.lookupStr (config_name ++ ".user") <;> rw [hu] at h
    · exact absurd h (by simp)
    cases hp : cfg.lookupStr (config_name ++ ".password") <;> rw [hp] at h
    · exact absurd h (by simp)
    injection h with h
    rw [← h]

/-- Witness for C3 at a concrete configuration where only the global key is
present. -/
theorem rw_timeout_resolution_witness :
    resolveRwTimeout ⟨[], [("mysql_rw_timeout", 9)]⟩ "a" = 9 :=
  (rw_timeout_resolution ⟨[], [("mysql_rw_timeout", 9)]⟩ "a").2.2.1 rfl 9 rfl

/-- C4: `connect(config_name)` raises a configuration error iff at least one
of the keys `".host"`, `".user"`, `".password"` is absent (their `getString`
reads have no default); absence of `".db"`, `".port"`, `".socket"`,
`".connect_timeout"` or `".rw_timeout"` never by itself errors since each
read has a default (the iff quantifies over all stores, so any store with
host, user and password present succeeds whatever else is absent); and when
it raises, the eight-argument connect is never called and the connection
state is unchanged. -/
theorem connect_config_error_conditions (cfg : Config) (config_name : String)
    (st : ConnState) :
    (exceptIsOk (connectByConfig cfg config_name) = false ↔
      (cfg.lookupStr (config_name ++ ".host") = none ∨
       cfg.lookupStr (config_name ++ ".user") = none ∨
       cfg.lookupStr (config_name ++ ".password") = none)) ∧
    (exceptIsOk (connectByConfig cfg config_name) = false →
      step st (Op.connectCfg cfg config_name) = (st, [])) := by
  have hsplit := connectByConfig_eq cfg config_name
  cases hh : cfg.lookupStr (config_name ++ ".host") <;>
    cases hu : cfg.lookupStr (config_name ++ ".user") <;>
      cases hp : cfg.lookupStr (config_name ++ ".password") <;>
        rw [hh, hu, hp] at hsplit <;>
          simp [step, hsplit, exceptIsOk, hh, hu, hp]

/-- Witness for C4: a store missing `".host"` errors and leaves the state
of an already-connected `Connection` untouched, making no library call. -/
theorem connect_config_error_conditions_witness :
    step ⟨true⟩
        (Op.connectCfg ⟨[("m.user", "u"), ("m.password", "p")], []⟩ "m")
      = (⟨true⟩, []) :=
  (connect_config_error_conditions
    ⟨[("m.user", "u"), ("m.password", "p")], []⟩ "m" ⟨true⟩).2 rfl

/-- C5: the configuration-driven connect path satisfies the spec-side
predicate: it implements no timeout behaviour of its own, only mapping
timeout configuration into the native call's timeout parameters. -/
theorem wrapper_timeouts_only_parameters :
    timeoutBehaviourOnlyInLibrary connectByConfig := by
  intro cfg₁ cfg₂ config_name hs hi
  have hport : cfg₁.lookupInt (config_name ++ ".port") =
      cfg₂.lookupInt (config_name ++ ".port") := by
    apply hi
    intro hmem
    simp only [timeoutKeys, List.mem_cons, List.not_mem_nil, or_false]
      at hmem
    rcases hmem with h | h | h | h
    · exact append_left_ne _ _ (by decide) config_name h
    · exact append_left_ne _ _ (by decide) config_name h
    · exact append_ne_of_drop_ne ".port" "mysql_connect_timeout" (by decide)
        config_name h
    · exact append_ne_of_drop_ne ".port" "mysql_rw_timeout" (by decide)
        config_name h
  have h1 : cfg₂.lookupStr (config_name ++ ".host") =
      cfg₁.lookupStr (config_name ++ ".host") := by
    simp [Config.lookupStr, hs]
  have h2 : cfg₂.lookupStr (config_name ++ ".user") =
      cfg₁.lookupStr (config_name ++ ".user") := by
    simp [Config.lookupStr, hs]
  have h3 : cfg₂.lookupStr (config_name ++ ".password") =
      cfg₁.lookupStr (config_name ++ ".password") := by
    simp [Config.lookupStr, hs]
  rw [connectByConfig_eq, connectByConfig_eq, h1, h2, h3]
  cases hh : cfg₁.lookupStr (config_name ++ ".host") <;>
    cases hu : cfg₁.lookupStr (config_name ++ ".user") <;>
      cases hp : cfg₁.lookupStr (config_name ++ ".password") <;>
        simp [Except.map, dropTimeouts, Config.getStringD, Config.lookupStr,
          hs, Config.getIntD, hport]

/-- Witness for C5: two stores differing only in the timeout keys produce
the same library call apart from its timeout parameters. -/
theorem wrapper_timeouts_only_parameters_witness :
    Except.map dropTimeouts
        (connectByConfig
          ⟨[("m.host", "h"), ("m.user", "u"), ("m.password", "p")],
           [("mysql_connect_timeout", 1)]⟩ "m") =
      Except.map dropTimeouts
        (connectByConfig
          ⟨[("m.host", "h"), ("m.user", "u"), ("m.password", "p")],
           [("mysql_connect_timeout", 2), ("m.rw_timeout", 3)]⟩ "m") := by
  refine wrapper_timeouts_only_parameters
    ⟨[("m.host", "h"), ("m.user", "u"), ("m.password", "p")],
     [("mysql_connect_timeout", 1)]⟩
    ⟨[("m.host", "h"), ("m.user", "u"), ("m.password", "p")],
     [("mysql_connect_timeout", 2), ("m.rw_timeout", 3)]⟩ "m" rfl ?_
  intro k hk
  simp only [timeoutKeys, List.mem_cons, List.not_mem_nil, or_false,
    not_or] at hk
  obtain ⟨hk1, hk2, hk3, hk4⟩ := hk
  have e2 : ("m" ++ ".rw_timeout" : String) = "m.rw_timeout" := rfl
  rw [e2] at hk2
  have hb3 : (("mysql_connect_timeout" : String) == k) = false := by
    simp [Ne.symm hk3]
  have hb2 : (("m.rw_timeout" : String) == k) = false := by
    simp [Ne.symm hk2]
  simp [Config.lookupInt, List.find?, hb2, hb3]

/-- C9: when the per-connection timeout key is present, the resolved timeout
does not depend on the corresponding global key — two stores differing only
in the global key's value resolve the same timeout; likewise for the
rw timeout. -/
theorem timeout_global_key_noninterference (cfg : Config)
    (config_name : String) (v w : Int) :
    ((cfg.lookupInt (config_name ++ ".connect_timeout")).isSome →
      resolveConnectTimeout (cfg.setInt "mysql_connect_timeout" v)
          config_name =
        resolveConnectTimeout (cfg.setInt "mysql_connect_timeout" w)
          config_name) ∧
    ((cfg.lookupInt (config_name ++ ".rw_timeout")).isSome →
      resolveRwTimeout (cfg.setInt "mysql_rw_timeout" v) config_name =
        resolveRwTimeout (cfg.setInt "mysql_rw_timeout" w) config_name) := by
  constructor
  · intro h
    obtain ⟨t, ht⟩ := Option.isSome_iff_exists.mp h
    have hv := lookupInt_setInt_ne cfg "mysql_connect_timeout"
      (config_name ++ ".connect_timeout") v
      (connect_timeout_key_ne_global config_name)
    have hw := lookupInt_setInt_ne cfg "mysql_connect_timeout"
      (config_name ++ ".connect_timeout") w
      (connect_timeout_key_ne_global config_name)
    simp [resolveConnectTimeout, Config.getIntD, hv, hw, ht]
  · intro h
    obtain ⟨t, ht⟩ := Option.isSome_iff_exists.mp h
    have hv := lookupInt_setInt_ne cfg "mysql_rw_timeout"
      (config_name ++ ".rw_timeout") v (rw_timeout_key_ne_global config_name)
    have hw := lookupInt_setInt_ne cfg "mysql_rw_timeout"
      (config_name ++ ".rw_timeout") w (rw_timeout_key_ne_global config_name)
    simp [resolveRwTimeout, Config.getIntD, hv, hw, ht]

/-- Witness for C9 at a concrete store carrying the per-connection key. -/
theorem timeout_global_key_noninterference_witness :
    resolveConnectTimeout
        ((⟨[], [("a.connect_timeout", 5)]⟩ : Config).setInt
          "mysql_connect_timeout" 1) "a" =
      resolveConnectTimeout
        ((⟨[], [("a.connect_timeout", 5)]⟩ : Config).setInt
          "mysql_connect_timeout" 2) "a" :=
  (timeout_global_key_noninterference ⟨[], [("a.connect_timeout", 5)]⟩
    "a" 1 2).1 rfl

/-- C6 counterexample: the public interface of `Connection` is not exactly
the list the claim gives — `getDriver()` is declared public (Connection.h
line 121) but is not among the listed members. -/
theorem interface_exact_counterexample :
    ¬ ∀ m : String × String,
        m ∈ publicMemberSigs ↔ m ∈ c6ListedInterface := by
  intro hall
  have h := (hall ("getDriver", "()")).mp (by decide)
  exact absurd h (by decide)

/-- C6 amended: the `Connection` class exposes every member the claim lists
— the three constructors, the configuration-driven connect path, `ping()`,
`disconnect()` and the factory `query()` — and in addition exactly a public
virtual destructor, the explicit-parameter `connect` for reconnection, the
state accessor `connected()` and the native-handle accessor `getDriver()`. -/
theorem interface_listed_plus_accessors :
    (c6ListedInterface.all fun m => publicMemberSigs.contains m) = true ∧
    publicMemberSigs.filter (fun m => !(c6ListedInterface.contains m)) =
      [("~Connection", "()"),
       ("connect",
         "(db, server, user, password, port, socket, timeout, rw_timeout)"),
       ("connected", "()"),
       ("getDriver", "()")] := by
  exact ⟨by decide, by decide⟩

/-- C7: the wrapper only sequences native-library calls in the order
construct → connect → query → disconnect: a default-constructed `Connection`
is unconnected after initialising the library, connecting delegates one
`mysql_real_connect`, creating a `Query` while connected delegates one query
creation and leaves the connection up, disconnecting delegates one
`mysql_close` and leaves it down, and an already-connected `Connection` may
be reconnected with other settings; the emitted trace consists of exactly
these delegations in exactly this order. -/
theorem wrapper_delegation_sequence (args args₂ : ConnectArgs) (q : String) :
    construct.1 = ⟨false⟩ ∧
    construct.2 = [Event.libInit] ∧
    (runOps construct.1 [Op.connectExplicit args]).1 = ⟨true⟩ ∧
    (runOps construct.1 [Op.connectExplicit args, Op.query q]).1 = ⟨true⟩ ∧
    (runOps construct.1
      [Op.connectExplicit args, Op.query q, Op.disconnect]).1 = ⟨false⟩ ∧
    construct.2 ++
        (runOps construct.1
          [Op.connectExplicit args, Op.query q, Op.disconnect]).2 =
      [Event.libInit, Event.realConnect args, Event.createQuery q,
       Event.close] ∧
    runOps ⟨true⟩ [Op.connectExplicit args₂] =
      (⟨true⟩, [Event.realConnect args₂]) :=
  ⟨rfl, rfl, rfl, rfl, rfl, rfl, rfl⟩

/-- Every `instance()` call after the first returns the already-created
instance. -/
lemma singletonRun_some (i : Nat) :
    ∀ (k fresh : Nat), singletonRun (some i) fresh k = List.replicate k i
  | 0, _ => rfl
  | Nat.succ k, fresh => by
    simp [singletonRun, instanceCall, singletonRun_some i k (fresh + 1),
      List.replicate]

/-- C8: the header is 129 lines and declares exactly the two classes —
the wrapper `Connection` (on `boost::noncopyable`, wrapping the native
driver) and the library-initialisation `LibrarySingleton` (on
`ext::singleton<LibrarySingleton>`); every member of `LibrarySingleton`
(its constructor and destructor) is private, so an instance is obtainable
only through the `instance()` mechanism, and every sequence of `instance()`
calls returns the single instance created by the first call — at most one
instance ever exists. -/
theorem header_structure_and_singleton :
    headerLineCount = 129 ∧
    headerClasses.map ClassDecl.name = ["LibrarySingleton", "Connection"] ∧
    ConnectionClass.bases = ["boost::noncopyable"] ∧
    LibrarySingletonClass.bases = ["ext::singleton<LibrarySingleton>"] ∧
    librarySingletonMembers.map Member.kind =
      [MemberKind.ctor, MemberKind.dtor] ∧
    (librarySingletonMembers.all fun m => m.access == Access.priv) = true ∧
    ∀ k : Nat, singletonRun none 0 k = List.replicate k 0 := by
  refine ⟨rfl, rfl, rfl, rfl, rfl, rfl, ?_⟩
  intro k
  cases k with
  | zero => rfl
  | succ k =>
    simp [singletonRun, instanceCall, singletonRun_some, List.replicate]

lemma wstep_inv (w : World) (op : WOp) (hw : WInv w) : WInv (wstep w op) := by
  obtain ⟨hn, hb⟩ := hw
  cases op with
  | create =>
    refine ⟨List.nodup_cons.mpr ⟨fun hc => ?_, hn⟩, ?_⟩
    · exact absurd (hb _ hc) (lt_irrefl _)
    · intro x hx
      rcases List.mem_cons.mp hx with rfl | hx
      · exact Nat.lt_succ_self _
      · exact Nat.lt_succ_of_lt (hb _ hx)
  | destroy h =>
    exact ⟨hn.erase h, fun x hx => hb _ (List.mem_of_mem_erase hx)⟩

lemma wrun_inv : ∀ (ops : List WOp) (w : World), WInv w → WInv (wrun w ops)
  | [], _, hw => hw
  | op :: ops, w, hw => wrun_inv ops _ (wstep_inv w op hw)

/-- C10: each `Connection` uniquely owns its driver — the class is declared
on `boost::noncopyable` (no copy operations), the driver is held through a
private `std::unique_ptr<MYSQL>` field, and in the allocation model (each
constructor allocates a fresh driver, each destructor frees its own) no
sequence of constructions and destructions ever leaves two live connections
holding the same driver handle. -/
theorem driver_unique_ownership :
    ConnectionClass.bases = ["boost::noncopyable"] ∧
    (⟨"driver", MemberKind.field, Access.priv, "std::unique_ptr<MYSQL>",
        false⟩ : Member) ∈ connectionMembers ∧
    ∀ ops : List WOp, ((wrun ⟨0, []⟩ ops).conns).Nodup := by
  refine ⟨rfl, by decide, ?_⟩
  intro ops
  exact (wrun_inv ops ⟨0, []⟩ ⟨List.nodup_nil, by simp⟩).1

end Mysqlxx
